import Mathlib

/-!
# Connectivity generation of the Burton triangle cell

A shallow embedding of `burton_triangle_t` (src/ale/mesh/burton/burton_triangle.h):
the two generation operations `create_entities` and `create_bound_entities`,
the geometric query `min_length`, and `area`, which delegates to the shape
library.

The file ends with `inputs_t::load` (src/apps/maire_hydro/2d/inputs.h), the
dispatch of the input file on its extension.

Modelling conventions.

* `id_t` is a natural number.
* A raw id array (`id_t *`) is a total map from slot index to id; a store
  `p[i] = x` is `Buffer.write p i x`.  The array of arrays `id_t ** ent_ids`
  is a map from dimension to such an array.
* A function that writes through an output pointer returns the written buffer
  next to its C++ return value.
* The same two operations are given a second time as calls on a memory, a
  record of the cell object and of the arrays behind the pointer arguments,
  so that what a call leaves untouched can be stated.
* `assert(cond)` is modelled with assertions enabled: a false condition ends
  the call with `Failure.assertion`.  `raise_runtime_error(msg)` ends the call
  with `Failure.runtime_error msg`.
-/

namespace ale

/-- The ways a call can end without returning. -/
inductive Failure where
  | assertion (cond : String)
  | runtime_error (msg : String)
  | degenerate_geometry
deriving DecidableEq

deriving instance DecidableEq for Except

/-- The scalar type.  Coordinates and measures are exact rationals here. -/
abbrev real_t := ℚ

namespace geom

/-- A point of the plane. -/
abbrev point_t := real_t × real_t

/-- Twice the signed area of the triangle `a b c` (positive when the
vertices run counter-clockwise). -/
def cross (a b c : point_t) : real_t :=
  (b.1 - a.1) * (c.2 - a.2) - (c.1 - a.1) * (b.2 - a.2)

/-- Three points lie on a common line `α x + β y = γ`. -/
def collinear (a b c : point_t) : Prop :=
  ∃ α β γ : real_t, (α ≠ 0 ∨ β ≠ 0) ∧
    α * a.1 + β * a.2 = γ ∧ α * b.1 + β * b.2 = γ ∧ α * c.1 + β * c.2 = γ

namespace triangle

/-- Modelled from the spec: `geom::triangle<2>::area` lives in
ale/geom/shapes/triangle.h, which is not among the sources.  The spec (4.1)
describes it as the signed measure of the triangle, whose sign follows the
winding order, and which must fail when the vertices are collinear.  The
measure is computed exactly, so zero measure is the degenerate case. -/
def area (a b c : point_t) : Except Failure real_t :=
  if cross a b c = 0 then .error .degenerate_geometry
  else .ok (cross a b c / 2)

end triangle
end geom

namespace mesh

/-- The id type of the mesh topology. -/
abbrev id_t := Nat

/-- A raw array of ids, addressed by slot index. -/
abbrev Buffer := Nat → id_t

/-- The store `b[i] = x`. -/
def Buffer.write (b : Buffer) (i : Nat) (x : id_t) : Buffer :=
  fun j => if j = i then x else b j

/-- The first `n` slots of a buffer, in order. -/
def Buffer.slice (b : Buffer) (n : Nat) : List id_t :=
  (List.range n).map b

/-- The array whose first slots hold the given ids (every other slot holds 0). -/
def Buffer.ofList (l : List id_t) : Buffer :=
  fun i => l.getD i 0

/-- A mesh vertex, as far as the cell reads it: its coordinates. -/
structure burton_vertex_t where
  coordinates : geom.point_t

/-- The unordered vertex-id pair of the `k`-th edge record of an edge buffer. -/
def edge_pair (e : Buffer) (k : Nat) : Sym2 id_t :=
  s(e (2 * k), e (2 * k + 1))

/-- The set of unordered vertex-id pairs of the three edge records. -/
def edge_pairs (e : Buffer) : Finset (Sym2 id_t) :=
  {edge_pair e 0, edge_pair e 1, edge_pair e 2}

/-- The number of edge records, among the three, whose unordered pair is
`{a, b}`. -/
def edge_count (e : Buffer) (a b : id_t) : Nat :=
  ((List.range 3).filter fun k => edge_pair e k = s(a, b)).length

/-- The three vertex ids of a triangle, in the order the cell lists them. -/
def vertex_ids (v : Buffer) : List id_t :=
  [v 0, v 1, v 2]

/-- The three vertex ids of a triangle are pairwise distinct. -/
def distinct_ids (v : Buffer) : Prop :=
  v 0 ≠ v 1 ∧ v 1 ≠ v 2 ∧ v 0 ≠ v 2

instance (v : Buffer) : Decidable (distinct_ids v) := by
  unfold distinct_ids; infer_instance

/-- The vertex list of a cell read in another order: slot `i` of the result is
slot `σ i` of `v`, for the three slots of a triangle. -/
def permuted (σ : Equiv.Perm (Fin 3)) (v : Buffer) : Buffer :=
  fun i => if h : i < 3 then v (σ ⟨i, h⟩) else v i

/-- The id `x` is one of the two endpoints of the `k`-th edge record. -/
def is_endpoint (e : Buffer) (k : Nat) (x : id_t) : Prop :=
  x = e (2 * k) ∨ x = e (2 * k + 1)

instance (e : Buffer) (k : Nat) (x : id_t) : Decidable (is_endpoint e k x) := by
  unfold is_endpoint; infer_instance

/-- The position, among the three edges of the cell, of the edge whose
resolved id is `x`. -/
def edge_index (edge_ids : Buffer) (x : id_t) : Option Nat :=
  (List.range 3).find? fun k => edge_ids k = x

/-- The `i`-th corner record of a corner buffer: three consecutive slots. -/
def corner (c : Buffer) (i : Nat) : id_t × id_t × id_t :=
  (c (3 * i), c (3 * i + 1), c (3 * i + 2))

/-- The `k`-th wedge record of a wedge buffer: two consecutive slots. -/
def wedge (c : Buffer) (k : Nat) : id_t × id_t :=
  (c (2 * k), c (2 * k + 1))

/-- The six wedge records of a wedge buffer, in order. -/
def wedges (c : Buffer) : List (id_t × id_t) :=
  (List.range 6).map (wedge c)

/-- The records of a flattened buffer, read the way the caller walks it with
the arity list: starting at slot `pos`, each arity takes that many consecutive
slots. -/
def walk (b : Buffer) : Nat → List Nat → List (List id_t)
  | _, [] => []
  | pos, n :: ns => ((List.range n).map fun k => b (pos + k)) :: walk b (pos + n) ns

/-- What a call of `create_entities` reaches: the cell object it is invoked
on, and the arrays behind the pointer arguments `e` and `v`, which do not
overlap. -/
structure entities_memory (Cell : Type) where
  cell : Cell
  e : Buffer
  v : Buffer

/-- What a call of `create_bound_entities` reaches: the cell object it is
invoked on, and the arrays behind the pointer arguments `ent_ids`,
`ent_counts` and `c`, which do not overlap. -/
structure bound_memory (Cell : Type) where
  cell : Cell
  ent_ids : Nat → Buffer
  ent_counts : Nat → Nat
  c : Buffer

namespace burton_triangle_t

/-- The function `burton_triangle_t::area`: the shape library applied to the
coordinates of the three vertices of the cell. -/
def area (vs : Nat → burton_vertex_t) : Except Failure real_t :=
  geom.triangle.area (vs 0).coordinates (vs 1).coordinates (vs 2).coordinates

/-- The function `burton_triangle_t::min_length`: starts from the length of
the first edge and folds `std::min` over the remaining edges.  The edge type
and its `length` are parameters; lengths live in a linear order.  An empty
edge list has no first edge to read, so there is no result. -/
def min_length {Edge α : Type} [LinearOrder α] (length : Edge → α) (es : List Edge) :
    Option α :=
  match es with
  | [] => none
  | e0 :: rest => some (rest.foldl (fun min_length e => min (length e) min_length) (length e0))

/-- The function `burton_triangle_t::create_entities`: the three edges of the
triangle, written to `e` as vertex-id pairs; returns the arities. -/
def create_entities (dim : Nat) (e v : Buffer) (vertex_count : Nat) :
    Except Failure (List id_t × Buffer) :=
  if dim ≠ 1 then .error (.assertion "dim == 1")
  else if vertex_count ≠ 3 then .error (.assertion "vertex_count == 3")
  else
    let e := e.write 0 (v 0)
    let e := e.write 1 (v 1)
    let e := e.write 2 (v 1)
    let e := e.write 3 (v 2)
    let e := e.write 4 (v 2)
    let e := e.write 5 (v 0)
    .ok ([2, 2, 2], e)

/-- The function `burton_triangle_t::create_bound_entities`: corners
(`dim = 1`) or wedges (`dim = 2`) of the triangle, written to `c` from the
resolved vertex ids `ent_ids 0` and edge ids `ent_ids 1`; returns the
arities. -/
def create_bound_entities (from_domain to_domain dim : Nat) (ent_ids : Nat → Buffer)
    (ent_counts : Nat → Nat) (c : Buffer) : Except Failure (List id_t × Buffer) :=
  if ent_counts 0 ≠ 3 then .error (.assertion "ent_counts[0] == 3")
  else
    match dim with
    | 1 =>
      -- corner 0
      let c := c.write 0 (ent_ids 0 0)
      let c := c.write 1 (ent_ids 1 0)
      let c := c.write 2 (ent_ids 1 2)
      -- corner 1
      let c := c.write 3 (ent_ids 0 1)
      let c := c.write 4 (ent_ids 1 1)
      let c := c.write 5 (ent_ids 1 0)
      -- corner 2
      let c := c.write 6 (ent_ids 0 2)
      let c := c.write 7 (ent_ids 1 2)
      let c := c.write 8 (ent_ids 1 1)
      .ok ([3, 3, 3], c)
    | 2 =>
      -- wedge 0
      let c := c.write 0 (ent_ids 0 0)
      let c := c.write 1 (ent_ids 1 2)
      -- wedge 1
      let c := c.write 2 (ent_ids 0 0)
      let c := c.write 3 (ent_ids 1 0)
      -- wedge 2
      let c := c.write 4 (ent_ids 0 1)
      let c := c.write 5 (ent_ids 1 0)
      -- wedge 3
      let c := c.write 6 (ent_ids 0 1)
      let c := c.write 7 (ent_ids 1 1)
      -- wedge 4
      let c := c.write 8 (ent_ids 0 2)
      let c := c.write 9 (ent_ids 1 1)
      -- wedge 5
      let c := c.write 10 (ent_ids 0 2)
      let c := c.write 11 (ent_ids 1 2)
      .ok ([2, 2, 2, 2, 2, 2], c)
    | _ => .error (.runtime_error "Unknown bound entity type")

/-- The function `burton_triangle_t::create_entities` as a call on a memory:
every statement of the body in order, each store going to the array it names;
returns the arities and the memory after the call. -/
def create_entities_call {Cell : Type} (dim vertex_count : Nat) (m : entities_memory Cell) :
    Except Failure (List id_t × entities_memory Cell) :=
  if dim ≠ 1 then .error (.assertion "dim == 1")
  else if vertex_count ≠ 3 then .error (.assertion "vertex_count == 3")
  else
    let m := { m with e := m.e.write 0 (m.v 0) }
    let m := { m with e := m.e.write 1 (m.v 1) }
    let m := { m with e := m.e.write 2 (m.v 1) }
    let m := { m with e := m.e.write 3 (m.v 2) }
    let m := { m with e := m.e.write 4 (m.v 2) }
    let m := { m with e := m.e.write 5 (m.v 0) }
    .ok ([2, 2, 2], m)

/-- The function `burton_triangle_t::create_bound_entities` as a call on a
memory: every statement of the body in order, each store going to the array it
names; returns the arities and the memory after the call. -/
def create_bound_entities_call {Cell : Type} (from_domain to_domain dim : Nat)
    (m : bound_memory Cell) : Except Failure (List id_t × bound_memory Cell) :=
  if m.ent_counts 0 ≠ 3 then .error (.assertion "ent_counts[0] == 3")
  else
    match dim with
    | 1 =>
      -- corner 0
      let m := { m with c := m.c.write 0 (m.ent_ids 0 0) }
      let m := { m with c := m.c.write 1 (m.ent_ids 1 0) }
      let m := { m with c := m.c.write 2 (m.ent_ids 1 2) }
      -- corner 1
      let m := { m with c := m.c.write 3 (m.ent_ids 0 1) }
      let m := { m with c := m.c.write 4 (m.ent_ids 1 1) }
      let m := { m with c := m.c.write 5 (m.ent_ids 1 0) }
      -- corner 2
      let m := { m with c := m.c.write 6 (m.ent_ids 0 2) }
      let m := { m with c := m.c.write 7 (m.ent_ids 1 2) }
      let m := { m with c := m.c.write 8 (m.ent_ids 1 1) }
      .ok ([3, 3, 3], m)
    | 2 =>
      -- wedge 0
      let m := { m with c := m.c.write 0 (m.ent_ids 0 0) }
      let m := { m with c := m.c.write 1 (m.ent_ids 1 2) }
      -- wedge 1
      let m := { m with c := m.c.write 2 (m.ent_ids 0 0) }
      let m := { m with c := m.c.write 3 (m.ent_ids 1 0) }
      -- wedge 2
      let m := { m with c := m.c.write 4 (m.ent_ids 0 1) }
      let m := { m with c := m.c.write 5 (m.ent_ids 1 0) }
      -- wedge 3
      let m := { m with c := m.c.write 6 (m.ent_ids 0 1) }
      let m := { m with c := m.c.write 7 (m.ent_ids 1 1) }
      -- wedge 4
      let m := { m with c := m.c.write 8 (m.ent_ids 0 2) }
      let m := { m with c := m.c.write 9 (m.ent_ids 1 1) }
      -- wedge 5
      let m := { m with c := m.c.write 10 (m.ent_ids 0 2) }
      let m := { m with c := m.c.write 11 (m.ent_ids 1 2) }
      .ok ([2, 2, 2, 2, 2, 2], m)
    | _ => .error (.runtime_error "Unknown bound entity type")

end burton_triangle_t

/-- Sample resolved ids: vertices 10, 20, 30 in dimension 0 and edges
100, 200, 300 in dimension 1. -/
def sample_ent_ids : Nat → Buffer
  | 0 => Buffer.ofList [10, 20, 30]
  | 1 => Buffer.ofList [100, 200, 300]
  | _ => Buffer.ofList []

/-- Sample entity counts: 3 vertices, 3 edges. -/
def sample_ent_counts : Nat → Nat
  | 0 => 3
  | 1 => 3
  | _ => 0

/-- Sample triangle with vertex ids 10, 20, 30. -/
def sample_triangle : Buffer := Buffer.ofList [10, 20, 30]

/-- Sample neighbour of `sample_triangle` across the edge 10-20, listing the
shared vertices in the opposite order. -/
def sample_neighbour : Buffer := Buffer.ofList [20, 10, 40]

/-- Sample vertex list with a repeated id. -/
def sample_repeated : Buffer := Buffer.ofList [1, 2, 1]

/-- An output buffer holding 0 in every slot. -/
def zero_buffer : Buffer := fun _ => 0

/-- Sample edge lengths of a 3-4-5 triangle, the shortest edge last. -/
def sample_lengths : List ℚ := [4, 5, 3]

/-- Sample vertices on the line `y = x`. -/
def sample_collinear : Nat → burton_vertex_t
  | 0 => ⟨(0, 0)⟩
  | 1 => ⟨(1, 1)⟩
  | _ => ⟨(2, 2)⟩

/-- An output buffer holding 7 in every slot. -/
def seven_buffer : Buffer := fun _ => 7

/-- Sample memory of a `create_entities` call: cell state 0, a zeroed output
array and the vertex ids 10, 20, 30. -/
def sample_entities_memory : entities_memory Nat :=
  ⟨0, zero_buffer, sample_triangle⟩

/-- Sample memory of a `create_entities` call on another cell with the same
vertex ids: cell state 1, another previous output array, and further ids
behind the three vertex ids. -/
def sample_entities_memory_other : entities_memory Nat :=
  ⟨1, seven_buffer, Buffer.ofList [10, 20, 30, 99]⟩

/-- Sample memory of a `create_bound_entities` call: cell state 0, the sample
ids and counts and a zeroed output array. -/
def sample_bound_memory : bound_memory Nat :=
  ⟨0, sample_ent_ids, sample_ent_counts, zero_buffer⟩

/-- Sample entity counts with the same vertex count and other counts
elsewhere. -/
def sample_ent_counts_other : Nat → Nat
  | 0 => 3
  | _ => 5

/-- Sample memory of a `create_bound_entities` call on another cell with the
same vertex and edge ids: cell state 1, other counts beyond the vertex count
and another previous output array. -/
def sample_bound_memory_other : bound_memory Nat :=
  ⟨1, sample_ent_ids, sample_ent_counts_other, seven_buffer⟩

end mesh
end ale

namespace apps
namespace hydro

open ale

/-- The CFL limits, with the three members `load_lua` assigns. -/
structure time_constants_t where
  accoustic : real_t
  volume : real_t
  growth : real_t

/-- The static input fields of `inputs_t`.  The types of the equation of
state, of the initial-condition function and of the boundary-condition list
are parameters.  The fields `prefix_` and `postfix_` are the members `prefix`
and `postfix` of the source, which are reserved words here. -/
structure inputs_t (eos_t ics_function_t bcs_list_t : Type) where
  prefix_ : String
  postfix_ : String
  output_freq : Nat
  CFL : time_constants_t
  final_time : real_t
  initial_time_step : real_t
  max_steps : Nat
  eos : eos_t
  ics : ics_function_t
  bcs : bcs_list_t

/-- The outcome of a call on the process state `σ`: how the call ended, and
the state it left behind.  A thrown error leaves the state as it was at the
throw. -/
abbrev Outcome (σ : Type) := Except Failure Unit × σ

/-- The text streamed into `throw_runtime_error` by `load`. -/
def unknown_extension_message (file : String) : String :=
  "Unknown file extension for \"" ++ file ++ "\""

namespace inputs_t

/-- The function `inputs_t::load`.  The helper `ristra::utils::file_extension`
and the loader `load_lua`, which runs the Lua interpreter on the file, are
parameters; `σ` is the process state the loader acts on, the static input
fields among it. -/
def load {σ : Type} (file_extension : String → String)
    (load_lua : String → σ → Outcome σ) (file : String) (s : σ) : Outcome σ :=
  let ext := file_extension file
  if ext = "lua" then
    load_lua file s
  else
    (.error (.runtime_error (unknown_extension_message file)), s)

end inputs_t

/-- A loader run under observation: the state is paired with the log of loader
invocations, and each invocation appends its file argument to the log. -/
def observed {σ : Type} (load_lua : String → σ → Outcome σ) :
    String → σ × List String → Outcome (σ × List String) :=
  fun file s => ((load_lua file s.1).1, ((load_lua file s.1).2, s.2 ++ [file]))

/-- Sample extension helper: the characters after the last dot of the file
name, and the empty string when there is no dot. -/
def sample_file_extension (file : String) : String :=
  if '.' ∈ file.toList then
    String.mk (file.toList.reverse.takeWhile fun ch => ch ≠ '.').reverse
  else ""

/-- Sample static input fields. -/
def sample_inputs : inputs_t Unit Unit Unit :=
  ⟨"out", "dat", 10, ⟨1, 1, 1⟩, 1, 1, 100, (), (), ()⟩

/-- Sample loader: sets the output frequency to 20 and the step cap to 5. -/
def sample_load_lua (_file : String) (s : inputs_t Unit Unit Unit) :
    Outcome (inputs_t Unit Unit Unit) :=
  (.ok (), { s with output_freq := 20, max_steps := 5 })

end hydro
end apps

namespace ale
namespace mesh

open burton_triangle_t

/-! ## Reading a written buffer -/

theorem Buffer.write_same (b : Buffer) (i : Nat) (x : id_t) : (b.write i x) i = x := by
  simp [Buffer.write]

theorem Buffer.write_other (b : Buffer) (i j : Nat) (x : id_t) (h : j ≠ i) :
    (b.write i x) j = b j := by
  simp [Buffer.write, h]

/-! ## Edges -/

/-- Claim C1: for every vertex-id triple, `create_entities` with `dim = 1` and
`vertex_count = 3` returns the arities `[2, 2, 2]` and the written buffer holds
`(v0, v1, v1, v2, v2, v0)` in slots 0 to 5. -/
theorem create_entities_edges (e v : Buffer) :
    ∃ b, create_entities 1 e v 3 = .ok ([2, 2, 2], b) ∧
      b.slice 6 = [v 0, v 1, v 1, v 2, v 2, v 0] := by
  refine ⟨_, rfl, ?_⟩
  simp [Buffer.slice, Buffer.write, List.range_succ]

/-- The call `create_entities 1 e v 3` returns, and the slots of the written
buffer read back the edge table of the source. -/
theorem create_entities_ok (e v : Buffer) :
    ∃ b, create_entities 1 e v 3 = .ok ([2, 2, 2], b) ∧
      b 0 = v 0 ∧ b 1 = v 1 ∧ b 2 = v 1 ∧ b 3 = v 2 ∧ b 4 = v 2 ∧ b 5 = v 0 := by
  refine ⟨_, rfl, ?_⟩
  simp [Buffer.write]

/-- The unordered pairs of the three edge records, read from the slots. -/
theorem edge_pairs_of_slots (b v : Buffer)
    (h : b 0 = v 0 ∧ b 1 = v 1 ∧ b 2 = v 1 ∧ b 3 = v 2 ∧ b 4 = v 2 ∧ b 5 = v 0) :
    edge_pair b 0 = s(v 0, v 1) ∧ edge_pair b 1 = s(v 1, v 2) ∧
      edge_pair b 2 = s(v 2, v 0) := by
  obtain ⟨h0, h1, h2, h3, h4, h5⟩ := h
  simp [edge_pair, h0, h1, h2, h3, h4, h5]

/-- Reading the vertices of a triangle in another order leaves the set of
unordered pairs of cyclically adjacent vertices unchanged. -/
theorem cyclic_pairs_permuted (σ : Equiv.Perm (Fin 3)) (v : Buffer) :
    ({s(permuted σ v 0, permuted σ v 1), s(permuted σ v 1, permuted σ v 2),
      s(permuted σ v 2, permuted σ v 0)} : Finset (Sym2 id_t))
      = {s(v 0, v 1), s(v 1, v 2), s(v 2, v 0)} := by
  have h01 : σ 0 ≠ σ 1 := fun h => absurd (σ.injective h) (by decide)
  have h12 : σ 1 ≠ σ 2 := fun h => absurd (σ.injective h) (by decide)
  have h02 : σ 0 ≠ σ 2 := fun h => absurd (σ.injective h) (by decide)
  have e0 : permuted σ v 0 = v (σ 0) := by simp [permuted]
  have e1 : permuted σ v 1 = v (σ 1) := by simp [permuted]
  have e2 : permuted σ v 2 = v (σ 2) := by simp [permuted]
  rw [e0, e1, e2]
  generalize σ 0 = a at *
  generalize σ 1 = b at *
  generalize σ 2 = c at *
  fin_cases a <;> fin_cases b <;> fin_cases c <;>
    first
    | exact absurd rfl h01
    | exact absurd rfl h12
    | exact absurd rfl h02
    | (ext p
       simp only [Finset.mem_insert, Finset.mem_singleton, Sym2.eq_swap (a := v 1) (b := v 0),
         Sym2.eq_swap (a := v 2) (b := v 1), Sym2.eq_swap (a := v 0) (b := v 2),
         Fin.val_zero, Fin.val_one, Fin.val_two, Fin.zero_eta, Fin.mk_one]
       try tauto)

/-- With pairwise distinct vertex ids, exactly one of the three cyclic edges
has the unordered pair of two given distinct vertices of the triangle. -/
theorem edge_count_of_slots (b v : Buffer) (x y : id_t)
    (h : edge_pair b 0 = s(v 0, v 1) ∧ edge_pair b 1 = s(v 1, v 2) ∧
      edge_pair b 2 = s(v 2, v 0))
    (hv : distinct_ids v) (hxy : x ≠ y) (hx : x ∈ vertex_ids v) (hy : y ∈ vertex_ids v) :
    edge_count b x y = 1 := by
  obtain ⟨h0, h1, h2⟩ := h
  obtain ⟨d01, d12, d02⟩ := hv
  have d10 := d01.symm
  have d21 := d12.symm
  have d20 := d02.symm
  simp only [vertex_ids, List.mem_cons, List.mem_singleton, List.not_mem_nil, or_false] at hx hy
  rcases hx with rfl | rfl | rfl <;> rcases hy with rfl | rfl | rfl <;>
    first
    | exact absurd rfl hxy
    | simp [edge_count, List.range_succ, List.filter, h0, h1, h2, d01, d12, d02, d10, d21, d20]

/-- Claim C5, as stated, fails for a vertex list with a repeated id: the list
`(1, 2, 1)` contains the distinct ids 1 and 2, the edges written are
`1-2, 2-1, 1-1`, and two of them have the unordered pair `{1, 2}`. -/
theorem create_entities_edge_merge_counterexample :
    (create_entities 1 zero_buffer sample_repeated 3).map (fun r => r.2.slice 6)
      = .ok [1, 2, 2, 1, 1, 1] ∧
    (1 : id_t) ≠ 2 ∧ 1 ∈ vertex_ids sample_repeated ∧ 2 ∈ vertex_ids sample_repeated ∧
    (create_entities 1 zero_buffer sample_repeated 3).map (fun r => edge_count r.2 1 2)
      = .ok 2 := by
  decide

/-- Claim C5, amended: for every vertex triple `v` and every reordering `σ` of
it the set of unordered pairs of the three emitted edges is the same; when the
three ids are pairwise distinct this set has three members and consists of
exactly the pairs of two different ids of the triple; and for two triangles
`v` and `w`, each with pairwise distinct ids, that both contain the ids
`x ≠ y`, each emits exactly one edge whose unordered pair is `{x, y}`. -/
theorem create_entities_edge_merge (e₁ e₂ e₃ v w : Buffer) (σ : Equiv.Perm (Fin 3)) :
    ∃ b₁ b₂ b₃, create_entities 1 e₁ v 3 = .ok ([2, 2, 2], b₁) ∧
      create_entities 1 e₂ (permuted σ v) 3 = .ok ([2, 2, 2], b₂) ∧
      create_entities 1 e₃ w 3 = .ok ([2, 2, 2], b₃) ∧
      edge_pairs b₂ = edge_pairs b₁ ∧
      (distinct_ids v →
        (edge_pairs b₁).card = 3 ∧
        ∀ x y, s(x, y) ∈ edge_pairs b₁ ↔ x ≠ y ∧ x ∈ vertex_ids v ∧ y ∈ vertex_ids v) ∧
      (distinct_ids v → distinct_ids w →
        ∀ x y, x ≠ y → x ∈ vertex_ids v → y ∈ vertex_ids v →
          x ∈ vertex_ids w → y ∈ vertex_ids w →
          edge_count b₁ x y = 1 ∧ edge_count b₃ x y = 1) := by
  obtain ⟨b₁, r₁, s₁⟩ := create_entities_ok e₁ v
  obtain ⟨b₂, r₂, s₂⟩ := create_entities_ok e₂ (permuted σ v)
  obtain ⟨b₃, r₃, s₃⟩ := create_entities_ok e₃ w
  have p₁ := edge_pairs_of_slots b₁ v s₁
  have p₂ := edge_pairs_of_slots b₂ (permuted σ v) s₂
  have p₃ := edge_pairs_of_slots b₃ w s₃
  refine ⟨b₁, b₂, b₃, r₁, r₂, r₃, ?_, ?_, ?_⟩
  · simp only [edge_pairs, p₁.1, p₁.2.1, p₁.2.2, p₂.1, p₂.2.1, p₂.2.2]
    exact cyclic_pairs_permuted σ v
  · rintro ⟨d01, d12, d02⟩
    have d10 := d01.symm
    have d21 := d12.symm
    have d20 := d02.symm
    simp only [edge_pairs, p₁.1, p₁.2.1, p₁.2.2]
    constructor
    · rw [Finset.card_insert_of_not_mem, Finset.card_insert_of_not_mem, Finset.card_singleton]
      · simp [d01, d12, d02, d10, d21, d20]
      · simp [d01, d12, d02, d10, d21, d20]
    · intro x y
      simp only [Finset.mem_insert, Finset.mem_singleton, Sym2.eq_iff, vertex_ids,
        List.mem_cons, List.mem_singleton, List.not_mem_nil, or_false]
      constructor
      · intro h
        rcases h with (⟨rfl, rfl⟩ | ⟨rfl, rfl⟩) | (⟨rfl, rfl⟩ | ⟨rfl, rfl⟩) | (⟨rfl, rfl⟩ | ⟨rfl, rfl⟩) <;>
          simp [d01, d12, d02, d10, d21, d20]
      · rintro ⟨hxy, rfl | rfl | rfl, rfl | rfl | rfl⟩ <;>
          first
          | exact absurd rfl hxy
          | simp
  · intro hv hw x y hxy hxv hyv hxw hyw
    exact ⟨edge_count_of_slots b₁ v x y p₁ hv hxy hxv hyv,
      edge_count_of_slots b₃ w x y p₃ hw hxy hxw hyw⟩

/-- Witness of `create_entities_edge_merge`: the triangle `(10, 20, 30)`, read
with its first two vertices swapped, and its neighbour `(20, 10, 40)` across
the edge 10-20. -/
theorem create_entities_edge_merge_witness :
    distinct_ids sample_triangle ∧ distinct_ids sample_neighbour ∧
    ∃ b₁ b₂ b₃, create_entities 1 zero_buffer sample_triangle 3 = .ok ([2, 2, 2], b₁) ∧
      create_entities 1 zero_buffer (permuted (Equiv.swap 0 1) sample_triangle) 3
        = .ok ([2, 2, 2], b₂) ∧
      create_entities 1 zero_buffer sample_neighbour 3 = .ok ([2, 2, 2], b₃) ∧
      edge_pairs b₂ = edge_pairs b₁ ∧
      (edge_pairs b₁).card = 3 ∧
      edge_count b₁ 10 20 = 1 ∧ edge_count b₃ 10 20 = 1 :=
  match create_entities_edge_merge zero_buffer zero_buffer zero_buffer sample_triangle
      sample_neighbour (Equiv.swap 0 1) with
  | ⟨b₁, b₂, b₃, r₁, r₂, r₃, hp, hs, hc⟩ =>
    ⟨by decide, by decide, b₁, b₂, b₃, r₁, r₂, r₃, hp, (hs (by decide)).1,
      hc (by decide) (by decide) 10 20 (by decide) (by decide) (by decide) (by decide)
        (by decide)⟩

/-! ## Arity checks of `create_entities` -/

/-- Claim C6: `create_entities` ends in an assertion failure, returning no
arity list, whenever `vertex_count ≠ 3` or `dim ≠ 1` (in particular for every
`dim ≥ 2`), and it returns when `dim = 1` and `vertex_count = 3`. -/
theorem create_entities_arity_check (dim vertex_count : Nat) (e v : Buffer) :
    (vertex_count ≠ 3 ∨ dim ≠ 1 →
      ∃ cond, create_entities dim e v vertex_count = .error (.assertion cond)) ∧
    (2 ≤ dim → ∃ cond, create_entities dim e v vertex_count = .error (.assertion cond)) ∧
    (dim = 1 → vertex_count = 3 →
      ∃ b, create_entities dim e v vertex_count = .ok ([2, 2, 2], b)) := by
  refine ⟨?_, ?_, ?_⟩
  · intro h
    by_cases hd : dim = 1
    · have hc : vertex_count ≠ 3 := by
        rcases h with h | h
        · exact h
        · exact absurd hd h
      exact ⟨"vertex_count == 3", by simp [create_entities, hd, hc]⟩
    · exact ⟨"dim == 1", by simp [create_entities, hd]⟩
  · intro h
    have hd : dim ≠ 1 := by omega
    exact ⟨"dim == 1", by simp [create_entities, hd]⟩
  · rintro rfl rfl
    exact ⟨_, rfl⟩

/-- Witness of `create_entities_arity_check`: a triangle given 4 vertices, a
request for dimension 2, and the well-formed request. -/
theorem create_entities_arity_check_witness :
    (∃ cond, create_entities 1 zero_buffer sample_triangle 4 = .error (.assertion cond)) ∧
    (∃ cond, create_entities 2 zero_buffer sample_triangle 3 = .error (.assertion cond)) ∧
    (∃ b, create_entities 1 zero_buffer sample_triangle 3 = .ok ([2, 2, 2], b)) :=
  ⟨(create_entities_arity_check 1 4 zero_buffer sample_triangle).1 (Or.inl (by decide)),
   (create_entities_arity_check 2 3 zero_buffer sample_triangle).2.1 (by decide),
   (create_entities_arity_check 1 3 zero_buffer sample_triangle).2.2 rfl rfl⟩

/-! ## Corners and wedges -/

/-- Claim C2: with three vertex ids supplied, `create_bound_entities` returns
the arities `[3, 3, 3]` at `dim = 1`, the arities `[2, 2, 2, 2, 2, 2]` at
`dim = 2`, and fails with a runtime error at every other `dim`. -/
theorem create_bound_entities_arities (from_domain to_domain : Nat) (ent_ids : Nat → Buffer)
    (ent_counts : Nat → Nat) (c : Buffer) (h : ent_counts 0 = 3) :
    (create_bound_entities from_domain to_domain 1 ent_ids ent_counts c).map Prod.fst
        = .ok [3, 3, 3] ∧
    (create_bound_entities from_domain to_domain 2 ent_ids ent_counts c).map Prod.fst
        = .ok [2, 2, 2, 2, 2, 2] ∧
    ∀ dim, dim ≠ 1 → dim ≠ 2 →
      create_bound_entities from_domain to_domain dim ent_ids ent_counts c
        = .error (.runtime_error "Unknown bound entity type") := by
  refine ⟨?_, ?_, ?_⟩
  · simp [create_bound_entities, h, Except.map]
  · simp [create_bound_entities, h, Except.map]
  · intro dim h1 h2
    unfold create_bound_entities
    rw [if_neg (by simp [h])]
    split
    · exact absurd rfl h1
    · exact absurd rfl h2
    · rfl

/-- Witness of `create_bound_entities_arities` on the sample ids, with the
failing dimensions 0 and 3. -/
theorem create_bound_entities_arities_witness :
    sample_ent_counts 0 = 3 ∧
    (create_bound_entities 0 1 1 sample_ent_ids sample_ent_counts zero_buffer).map Prod.fst
        = .ok [3, 3, 3] ∧
    (create_bound_entities 0 1 2 sample_ent_ids sample_ent_counts zero_buffer).map Prod.fst
        = .ok [2, 2, 2, 2, 2, 2] ∧
    create_bound_entities 0 1 0 sample_ent_ids sample_ent_counts zero_buffer
        = .error (.runtime_error "Unknown bound entity type") ∧
    create_bound_entities 0 1 3 sample_ent_ids sample_ent_counts zero_buffer
        = .error (.runtime_error "Unknown bound entity type") :=
  have t := create_bound_entities_arities 0 1 sample_ent_ids sample_ent_counts zero_buffer rfl
  ⟨rfl, t.1, t.2.1, t.2.2 0 (by decide) (by decide), t.2.2 3 (by decide) (by decide)⟩

/-- Claim C3: at `dim = 1`, corner `i` is written as vertex `i`, then edge `i`
(the edge following the vertex), then edge `(i + 2) mod 3` (the edge preceding
it), for each `i` in 0, 1, 2. -/
theorem create_bound_entities_corners (from_domain to_domain : Nat) (ent_ids : Nat → Buffer)
    (ent_counts : Nat → Nat) (c : Buffer) (h : ent_counts 0 = 3) :
    ∃ b, create_bound_entities from_domain to_domain 1 ent_ids ent_counts c
        = .ok ([3, 3, 3], b) ∧
      ∀ i, i < 3 →
        corner b i = (ent_ids 0 i, ent_ids 1 i, ent_ids 1 ((i + 2) % 3)) := by
  refine ⟨_, by simp only [create_bound_entities, h]; rfl, ?_⟩
  intro i hi
  interval_cases i <;> simp [corner, Buffer.write]

/-- Witness of `create_bound_entities_corners` on the sample ids: corner 1 is
vertex 20 with edges 200 and 100. -/
theorem create_bound_entities_corners_witness :
    sample_ent_counts 0 = 3 ∧
    ∃ b, create_bound_entities 0 1 1 sample_ent_ids sample_ent_counts zero_buffer
        = .ok ([3, 3, 3], b) ∧
      ∀ i, i < 3 →
        corner b i = (sample_ent_ids 0 i, sample_ent_ids 1 i, sample_ent_ids 1 ((i + 2) % 3)) :=
  ⟨rfl, create_bound_entities_corners 0 1 sample_ent_ids sample_ent_counts zero_buffer rfl⟩

/-- Claim C4, as stated, fails: on the sample ids the wedge buffer written at
`dim = 2` is `(V0,E2, V0,E0, V1,E0, V1,E1, V2,E1, V2,E2)`, which differs from
the claimed `(V0,E0, V0,E2, V1,E1, V1,E0, V2,E2, V2,E1)`; wedge 0 pairs vertex
10 with edge 300, not with edge 100. -/
theorem create_bound_entities_wedges_order_counterexample :
    (create_bound_entities 0 1 2 sample_ent_ids sample_ent_counts zero_buffer).map
        (fun r => r.2.slice 12)
      = .ok [10, 300, 10, 100, 20, 100, 20, 200, 30, 200, 30, 300] ∧
    (create_bound_entities 0 1 2 sample_ent_ids sample_ent_counts zero_buffer).map
        (fun r => r.2.slice 12)
      ≠ .ok [10, 100, 10, 300, 20, 200, 20, 100, 30, 300, 30, 200] ∧
    (create_bound_entities 0 1 2 sample_ent_ids sample_ent_counts zero_buffer).map
        (fun r => wedge r.2 0) = .ok (10, 300) := by
  decide

/-- Claim C4, amended: at `dim = 2` the wedge pair of vertex `i` is enumerated
as (vertex, edge before) then (vertex, edge after): wedge `2 i` is
`(V i, E ((i + 2) mod 3))` and wedge `2 i + 1` is `(V i, E i)`, so the buffer
holds `(V0,E2, V0,E0, V1,E0, V1,E1, V2,E1, V2,E2)` in slots 0 to 11. -/
theorem create_bound_entities_wedges (from_domain to_domain : Nat) (ent_ids : Nat → Buffer)
    (ent_counts : Nat → Nat) (c : Buffer) (h : ent_counts 0 = 3) :
    ∃ b, create_bound_entities from_domain to_domain 2 ent_ids ent_counts c
        = .ok ([2, 2, 2, 2, 2, 2], b) ∧
      (∀ i, i < 3 →
        wedge b (2 * i) = (ent_ids 0 i, ent_ids 1 ((i + 2) % 3)) ∧
        wedge b (2 * i + 1) = (ent_ids 0 i, ent_ids 1 i)) ∧
      b.slice 12 = [ent_ids 0 0, ent_ids 1 2, ent_ids 0 0, ent_ids 1 0,
                    ent_ids 0 1, ent_ids 1 0, ent_ids 0 1, ent_ids 1 1,
                    ent_ids 0 2, ent_ids 1 1, ent_ids 0 2, ent_ids 1 2] := by
  refine ⟨_, by simp only [create_bound_entities, h]; rfl, ?_, ?_⟩
  · intro i hi
    interval_cases i <;> simp [wedge, Buffer.write]
  · simp [Buffer.slice, Buffer.write, List.range_succ]

/-- Witness of `create_bound_entities_wedges` on the sample ids. -/
theorem create_bound_entities_wedges_witness :
    sample_ent_counts 0 = 3 ∧
    ∃ b, create_bound_entities 0 1 2 sample_ent_ids sample_ent_counts zero_buffer
        = .ok ([2, 2, 2, 2, 2, 2], b) ∧
      (∀ i, i < 3 →
        wedge b (2 * i) = (sample_ent_ids 0 i, sample_ent_ids 1 ((i + 2) % 3)) ∧
        wedge b (2 * i + 1) = (sample_ent_ids 0 i, sample_ent_ids 1 i)) ∧
      b.slice 12 = [sample_ent_ids 0 0, sample_ent_ids 1 2, sample_ent_ids 0 0,
                    sample_ent_ids 1 0, sample_ent_ids 0 1, sample_ent_ids 1 0,
                    sample_ent_ids 0 1, sample_ent_ids 1 1, sample_ent_ids 0 2,
                    sample_ent_ids 1 1, sample_ent_ids 0 2, sample_ent_ids 1 2] :=
  ⟨rfl, create_bound_entities_wedges 0 1 sample_ent_ids sample_ent_counts zero_buffer rfl⟩

/-! ## Composition of the two generation operations -/

/-- Every vertex of the triangle is an endpoint of the edge record at its own
position and of the edge record at the cyclically preceding position. -/
theorem is_endpoint_of_slots (b v : Buffer)
    (h : b 0 = v 0 ∧ b 1 = v 1 ∧ b 2 = v 1 ∧ b 3 = v 2 ∧ b 4 = v 2 ∧ b 5 = v 0) :
    ∀ i, i < 3 → is_endpoint b i (v i) ∧ is_endpoint b ((i + 2) % 3) (v i) := by
  obtain ⟨h0, h1, h2, h3, h4, h5⟩ := h
  intro i hi
  interval_cases i <;> simp [is_endpoint, h0, h1, h2, h3, h4, h5]

/-- With pairwise distinct edge ids, the id at position `k` is found at
position `k`. -/
theorem edge_index_of_distinct (edge_ids : Buffer) (h : distinct_ids edge_ids) :
    ∀ k, k < 3 → edge_index edge_ids (edge_ids k) = some k := by
  obtain ⟨d01, d12, d02⟩ := h
  have d10 := d01.symm
  have d21 := d12.symm
  have d20 := d02.symm
  intro k hk
  interval_cases k <;>
    simp [edge_index, List.range_succ, List.find?, d01, d12, d02, d10, d21, d20]

/-- The corner call returns, and its three records read back the corner table
of the source. -/
theorem corner_records (from_domain to_domain : Nat) (ent_ids : Nat → Buffer)
    (ent_counts : Nat → Nat) (c : Buffer) (h : ent_counts 0 = 3) :
    ∃ b, create_bound_entities from_domain to_domain 1 ent_ids ent_counts c
        = .ok ([3, 3, 3], b) ∧
      ∀ i, i < 3 → corner b i = (ent_ids 0 i, ent_ids 1 i, ent_ids 1 ((i + 2) % 3)) := by
  refine ⟨_, by simp only [create_bound_entities, h]; rfl, ?_⟩
  intro i hi
  interval_cases i <;> simp [corner, Buffer.write]

/-- The wedge call returns, and its six records read back the wedge table of
the source. -/
theorem wedge_records (from_domain to_domain : Nat) (ent_ids : Nat → Buffer)
    (ent_counts : Nat → Nat) (c : Buffer) (h : ent_counts 0 = 3) :
    ∃ b, create_bound_entities from_domain to_domain 2 ent_ids ent_counts c
        = .ok ([2, 2, 2, 2, 2, 2], b) ∧
      ∀ i, i < 3 → wedge b (2 * i) = (ent_ids 0 i, ent_ids 1 ((i + 2) % 3)) ∧
        wedge b (2 * i + 1) = (ent_ids 0 i, ent_ids 1 i) := by
  refine ⟨_, by simp only [create_bound_entities, h]; rfl, ?_⟩
  intro i hi
  interval_cases i <;> simp [wedge, Buffer.write]

/-- Claim C7: when the vertex ids given to both operations are the same and
edge id `k` names the `k`-th edge emitted by `create_entities`, every corner
written at `dim = 1` holds vertex `i` with the edges at the two different
positions `i` and `(i + 2) mod 3`, and the vertex is an endpoint of both;
every wedge written at `dim = 2` holds a vertex with an edge of which the
vertex is an endpoint.  With pairwise distinct edge ids the same holds for the
edges looked up by id. -/
theorem corners_wedges_incident (from_domain to_domain : Nat) (ent_ids : Nat → Buffer)
    (ent_counts : Nat → Nat) (e c₁ c₂ : Buffer) (h : ent_counts 0 = 3) :
    ∃ be bc bw, create_entities 1 e (ent_ids 0) 3 = .ok ([2, 2, 2], be) ∧
      create_bound_entities from_domain to_domain 1 ent_ids ent_counts c₁
        = .ok ([3, 3, 3], bc) ∧
      create_bound_entities from_domain to_domain 2 ent_ids ent_counts c₂
        = .ok ([2, 2, 2, 2, 2, 2], bw) ∧
      (∀ i, i < 3 →
        corner bc i = (ent_ids 0 i, ent_ids 1 i, ent_ids 1 ((i + 2) % 3)) ∧
        i ≠ (i + 2) % 3 ∧
        is_endpoint be i (ent_ids 0 i) ∧ is_endpoint be ((i + 2) % 3) (ent_ids 0 i)) ∧
      (∀ i, i < 3 →
        wedge bw (2 * i) = (ent_ids 0 i, ent_ids 1 ((i + 2) % 3)) ∧
        is_endpoint be ((i + 2) % 3) (ent_ids 0 i) ∧
        wedge bw (2 * i + 1) = (ent_ids 0 i, ent_ids 1 i) ∧
        is_endpoint be i (ent_ids 0 i)) ∧
      (distinct_ids (ent_ids 1) →
        (∀ i, i < 3 → ∃ j k, edge_index (ent_ids 1) (corner bc i).2.1 = some j ∧
          edge_index (ent_ids 1) (corner bc i).2.2 = some k ∧ j ≠ k ∧
          (corner bc i).2.1 ≠ (corner bc i).2.2 ∧
          is_endpoint be j (corner bc i).1 ∧ is_endpoint be k (corner bc i).1) ∧
        (∀ n, n < 6 → ∃ j, edge_index (ent_ids 1) (wedge bw n).2 = some j ∧
          is_endpoint be j (wedge bw n).1)) := by
  obtain ⟨be, re, se⟩ := create_entities_ok e (ent_ids 0)
  have inc := is_endpoint_of_slots be (ent_ids 0) se
  obtain ⟨bc, rc, hc⟩ := corner_records from_domain to_domain ent_ids ent_counts c₁ h
  obtain ⟨bw, rw, hw⟩ := wedge_records from_domain to_domain ent_ids ent_counts c₂ h
  refine ⟨be, bc, bw, re, rc, rw, ?_, ?_, ?_⟩
  · intro i hi
    exact ⟨hc i hi, by omega, (inc i hi).1, (inc i hi).2⟩
  · intro i hi
    exact ⟨(hw i hi).1, (inc i hi).2, (hw i hi).2, (inc i hi).1⟩
  · intro hd
    have idx := edge_index_of_distinct (ent_ids 1) hd
    have hm : ∀ i, i < 3 → (i + 2) % 3 < 3 := fun i _ => Nat.mod_lt _ (by decide)
    have hne : ∀ i, i < 3 → ent_ids 1 i ≠ ent_ids 1 ((i + 2) % 3) := by
      obtain ⟨d01, d12, d02⟩ := hd
      intro i hi
      interval_cases i
      · exact d02
      · exact d01.symm
      · exact d12.symm
    constructor
    · intro i hi
      refine ⟨i, (i + 2) % 3, ?_, ?_, by omega, ?_, ?_, ?_⟩
      · rw [hc i hi]; exact idx i hi
      · rw [hc i hi]; exact idx _ (hm i hi)
      · rw [hc i hi]; exact hne i hi
      · rw [hc i hi]; exact (inc i hi).1
      · rw [hc i hi]; exact (inc i hi).2
    · intro n hn
      obtain ⟨i, hi, rfl | rfl⟩ : ∃ i, i < 3 ∧ (n = 2 * i ∨ n = 2 * i + 1) :=
        ⟨n / 2, by omega, by omega⟩
      · refine ⟨(i + 2) % 3, ?_, ?_⟩
        · rw [(hw i hi).1]; exact idx _ (hm i hi)
        · rw [(hw i hi).1]; exact (inc i hi).2
      · refine ⟨i, ?_, ?_⟩
        · rw [(hw i hi).2]; exact idx i hi
        · rw [(hw i hi).2]; exact (inc i hi).1

/-- Witness of `corners_wedges_incident` on the sample ids, read at corner 1
and at wedge 0. -/
theorem corners_wedges_incident_witness :
    sample_ent_counts 0 = 3 ∧ distinct_ids (sample_ent_ids 1) ∧
    ∃ be bc bw, create_entities 1 zero_buffer (sample_ent_ids 0) 3 = .ok ([2, 2, 2], be) ∧
      create_bound_entities 0 1 1 sample_ent_ids sample_ent_counts zero_buffer
        = .ok ([3, 3, 3], bc) ∧
      create_bound_entities 0 1 2 sample_ent_ids sample_ent_counts zero_buffer
        = .ok ([2, 2, 2, 2, 2, 2], bw) ∧
      (corner bc 1 = (sample_ent_ids 0 1, sample_ent_ids 1 1, sample_ent_ids 1 ((1 + 2) % 3)) ∧
        1 ≠ (1 + 2) % 3 ∧
        is_endpoint be 1 (sample_ent_ids 0 1) ∧
        is_endpoint be ((1 + 2) % 3) (sample_ent_ids 0 1)) ∧
      (∃ j k, edge_index (sample_ent_ids 1) (corner bc 1).2.1 = some j ∧
          edge_index (sample_ent_ids 1) (corner bc 1).2.2 = some k ∧ j ≠ k ∧
          (corner bc 1).2.1 ≠ (corner bc 1).2.2 ∧
          is_endpoint be j (corner bc 1).1 ∧ is_endpoint be k (corner bc 1).1) ∧
      (∃ j, edge_index (sample_ent_ids 1) (wedge bw 0).2 = some j ∧
          is_endpoint be j (wedge bw 0).1) :=
  match corners_wedges_incident 0 1 sample_ent_ids sample_ent_counts zero_buffer zero_buffer
      zero_buffer rfl with
  | ⟨be, bc, bw, re, rc, rw, hc, _, hd⟩ =>
    ⟨rfl, by decide, be, bc, bw, re, rc, rw, hc 1 (by decide),
      (hd (by decide)).1 1 (by decide), (hd (by decide)).2 0 (by decide)⟩

/-! ## Geometric queries -/

/-- The running minimum of the fold in `min_length` is below the starting
value and below every length folded in, and it is one of these values. -/
theorem foldl_min_spec {Edge α : Type} [LinearOrder α] (length : Edge → α) (rest : List Edge) :
    ∀ init : α,
      rest.foldl (fun min_length e => min (length e) min_length) init ≤ init ∧
      (∀ e ∈ rest, rest.foldl (fun min_length e => min (length e) min_length) init
          ≤ length e) ∧
      (rest.foldl (fun min_length e => min (length e) min_length) init = init ∨
        ∃ e ∈ rest, rest.foldl (fun min_length e => min (length e) min_length) init
          = length e) := by
  induction rest with
  | nil => intro init; simp
  | cons x xs ih =>
    intro init
    obtain ⟨h1, h2, h3⟩ := ih (min (length x) init)
    simp only [List.foldl_cons, List.mem_cons]
    refine ⟨le_trans h1 (min_le_right _ _), ?_, ?_⟩
    · rintro e (rfl | he)
      · exact le_trans h1 (min_le_left _ _)
      · exact h2 e he
    · rcases h3 with h3 | ⟨e, he, h3⟩
      · rcases min_choice (length x) init with hm | hm
        · exact Or.inr ⟨x, Or.inl rfl, by rw [h3, hm]⟩
        · exact Or.inl (by rw [h3, hm])
      · exact Or.inr ⟨e, Or.inr he, h3⟩

/-- Claim C8: for a non-empty edge list `min_length` returns a value that is
at most the length of every edge of the cell and equals the length of one of
them. -/
theorem min_length_is_minimum {Edge α : Type} [LinearOrder α] (length : Edge → α)
    (es : List Edge) (h : es ≠ []) :
    ∃ m, min_length length es = some m ∧ (∀ e ∈ es, m ≤ length e) ∧
      ∃ e ∈ es, m = length e := by
  cases es with
  | nil => exact absurd rfl h
  | cons e0 rest =>
    obtain ⟨h1, h2, h3⟩ := foldl_min_spec length rest (length e0)
    refine ⟨_, rfl, ?_, ?_⟩
    · intro e he
      rcases List.mem_cons.mp he with rfl | he
      · exact h1
      · exact h2 e he
    · rcases h3 with h3 | ⟨e, he, h3⟩
      · exact ⟨e0, List.mem_cons_self _ _, h3⟩
      · exact ⟨e, List.mem_cons_of_mem _ he, h3⟩

/-- Witness of `min_length_is_minimum` on the edge lengths 4, 5, 3. -/
theorem min_length_is_minimum_witness :
    sample_lengths ≠ [] ∧
    ∃ m, min_length (fun x : ℚ => x) sample_lengths = some m ∧
      (∀ e ∈ sample_lengths, m ≤ e) ∧ ∃ e ∈ sample_lengths, m = e :=
  ⟨by simp [sample_lengths], min_length_is_minimum (fun x : ℚ => x) sample_lengths
    (by simp [sample_lengths])⟩

/-- Collinear points span zero signed area. -/
theorem cross_eq_zero_of_collinear (a b c : geom.point_t) (h : geom.collinear a b c) :
    geom.cross a b c = 0 := by
  obtain ⟨α, β, γ, hne, ha, hb, hc⟩ := h
  have hα : α * geom.cross a b c = 0 := by
    unfold geom.cross
    linear_combination (c.2 - a.2) * (hb - ha) - (b.2 - a.2) * (hc - ha)
  have hβ : β * geom.cross a b c = 0 := by
    unfold geom.cross
    linear_combination (b.1 - a.1) * (hc - ha) - (c.1 - a.1) * (hb - ha)
  rcases hne with hne | hne
  · exact (mul_eq_zero.mp hα).resolve_left hne
  · exact (mul_eq_zero.mp hβ).resolve_left hne

/-- Claim C9: for a triangle whose three vertices are collinear, `area` ends
with the degenerate-geometry failure and returns no numeric value. -/
theorem area_collinear_degenerate (vs : Nat → burton_vertex_t)
    (h : geom.collinear (vs 0).coordinates (vs 1).coordinates (vs 2).coordinates) :
    area vs = .error .degenerate_geometry ∧ ∀ x, area vs ≠ .ok x := by
  have hz := cross_eq_zero_of_collinear _ _ _ h
  have ha : area vs = .error .degenerate_geometry := by
    simp [area, geom.triangle.area, hz]
  exact ⟨ha, fun x hx => by rw [ha] at hx; cases hx⟩

/-- Witness of `area_collinear_degenerate`: the vertices (0,0), (1,1), (2,2)
lie on the line `x - y = 0`. -/
theorem area_collinear_degenerate_witness :
    geom.collinear (sample_collinear 0).coordinates (sample_collinear 1).coordinates
      (sample_collinear 2).coordinates ∧
    area sample_collinear = .error .degenerate_geometry ∧
    ∀ x, area sample_collinear ≠ .ok x :=
  have hc : geom.collinear (sample_collinear 0).coordinates (sample_collinear 1).coordinates
      (sample_collinear 2).coordinates :=
    ⟨1, -1, 0, Or.inl one_ne_zero, by norm_num [sample_collinear],
      by norm_num [sample_collinear], by norm_num [sample_collinear]⟩
  ⟨hc, area_collinear_degenerate sample_collinear hc⟩

/-! ## Corner and wedge consistency -/

/-- The wedge records in order, read from the wedge table. -/
theorem wedges_of_records (b : Buffer) (ent_ids : Nat → Buffer)
    (h : ∀ i, i < 3 → wedge b (2 * i) = (ent_ids 0 i, ent_ids 1 ((i + 2) % 3)) ∧
        wedge b (2 * i + 1) = (ent_ids 0 i, ent_ids 1 i)) :
    wedges b = [(ent_ids 0 0, ent_ids 1 2), (ent_ids 0 0, ent_ids 1 0),
                (ent_ids 0 1, ent_ids 1 0), (ent_ids 0 1, ent_ids 1 1),
                (ent_ids 0 2, ent_ids 1 1), (ent_ids 0 2, ent_ids 1 2)] := by
  have h0 := h 0 (by decide)
  have h1 := h 1 (by decide)
  have h2 := h 2 (by decide)
  simp only [Nat.mul_zero, Nat.mul_one, Nat.zero_add, Nat.reduceAdd, Nat.reduceMod,
    Nat.reduceMul] at h0 h1 h2
  simp [wedges, List.range_succ, h0.1, h0.2, h1.1, h1.2, h2.1, h2.2]

/-- Claim C10: for every vertex index `i` the wedges `2 i` and `2 i + 1`
written at `dim = 2` both hold the vertex of corner `i` written at `dim = 1`,
and their two edges are the two edges of corner `i`, one per wedge; when the
three vertex ids are pairwise distinct and the three edge ids are pairwise
distinct, the six wedges are pairwise distinct and a (vertex, edge) pair of the
cell occurs once among them when the vertex is an endpoint of the edge and not
at all otherwise. -/
theorem corner_wedge_consistency (from_domain to_domain : Nat) (ent_ids : Nat → Buffer)
    (ent_counts : Nat → Nat) (e c₁ c₂ : Buffer) (h : ent_counts 0 = 3) :
    ∃ be bc bw, create_entities 1 e (ent_ids 0) 3 = .ok ([2, 2, 2], be) ∧
      create_bound_entities from_domain to_domain 1 ent_ids ent_counts c₁
        = .ok ([3, 3, 3], bc) ∧
      create_bound_entities from_domain to_domain 2 ent_ids ent_counts c₂
        = .ok ([2, 2, 2, 2, 2, 2], bw) ∧
      (∀ i, i < 3 →
        (wedge bw (2 * i)).1 = (corner bc i).1 ∧
        (wedge bw (2 * i + 1)).1 = (corner bc i).1 ∧
        (wedge bw (2 * i + 1)).2 = (corner bc i).2.1 ∧
        (wedge bw (2 * i)).2 = (corner bc i).2.2 ∧
        s((wedge bw (2 * i)).2, (wedge bw (2 * i + 1)).2)
          = s((corner bc i).2.1, (corner bc i).2.2)) ∧
      (distinct_ids (ent_ids 0) → distinct_ids (ent_ids 1) →
        (wedges bw).Nodup ∧
        ∀ i, i < 3 → ∀ j, j < 3 →
          (wedges bw).count (ent_ids 0 i, ent_ids 1 j)
            = if is_endpoint be j (ent_ids 0 i) then 1 else 0) := by
  obtain ⟨be, re, se⟩ := create_entities_ok e (ent_ids 0)
  obtain ⟨bc, rc, hc⟩ := corner_records from_domain to_domain ent_ids ent_counts c₁ h
  obtain ⟨bw, rw, hw⟩ := wedge_records from_domain to_domain ent_ids ent_counts c₂ h
  refine ⟨be, bc, bw, re, rc, rw, ?_, ?_⟩
  · intro i hi
    rw [hc i hi, (hw i hi).1, (hw i hi).2]
    exact ⟨rfl, rfl, rfl, rfl, Sym2.eq_swap⟩
  · rintro ⟨v01, v12, v02⟩ ⟨d01, d12, d02⟩
    have v10 := v01.symm
    have v21 := v12.symm
    have v20 := v02.symm
    have d10 := d01.symm
    have d21 := d12.symm
    have d20 := d02.symm
    obtain ⟨s0, s1, s2, s3, s4, s5⟩ := se
    rw [wedges_of_records bw ent_ids hw]
    constructor
    · simp [v01, v12, v02, v10, v21, v20, d01, d12, d02, d10, d21, d20]
    · intro i hi j hj
      interval_cases i <;> interval_cases j <;>
        simp [is_endpoint, List.count_cons, s0, s1, s2, s3, s4, s5,
          v01, v12, v02, v10, v21, v20, d01, d12, d02, d10, d21, d20]

/-- Witness of `corner_wedge_consistency` on the sample ids, read at vertex 2
and at the pair of vertex 10 with its incident edge 300. -/
theorem corner_wedge_consistency_witness :
    sample_ent_counts 0 = 3 ∧ distinct_ids (sample_ent_ids 0) ∧
    distinct_ids (sample_ent_ids 1) ∧
    ∃ be bc bw, create_entities 1 zero_buffer (sample_ent_ids 0) 3 = .ok ([2, 2, 2], be) ∧
      create_bound_entities 0 1 1 sample_ent_ids sample_ent_counts zero_buffer
        = .ok ([3, 3, 3], bc) ∧
      create_bound_entities 0 1 2 sample_ent_ids sample_ent_counts zero_buffer
        = .ok ([2, 2, 2, 2, 2, 2], bw) ∧
      ((wedge bw (2 * 2)).1 = (corner bc 2).1 ∧
        (wedge bw (2 * 2 + 1)).1 = (corner bc 2).1 ∧
        (wedge bw (2 * 2 + 1)).2 = (corner bc 2).2.1 ∧
        (wedge bw (2 * 2)).2 = (corner bc 2).2.2 ∧
        s((wedge bw (2 * 2)).2, (wedge bw (2 * 2 + 1)).2)
          = s((corner bc 2).2.1, (corner bc 2).2.2)) ∧
      (wedges bw).Nodup ∧
      (wedges bw).count (sample_ent_ids 0 0, sample_ent_ids 1 2)
        = if is_endpoint be 2 (sample_ent_ids 0 0) then 1 else 0 :=
  match corner_wedge_consistency 0 1 sample_ent_ids sample_ent_counts zero_buffer zero_buffer
      zero_buffer rfl with
  | ⟨be, bc, bw, re, rc, rw, hi, hd⟩ =>
    ⟨rfl, by decide, by decide, be, bc, bw, re, rc, rw, hi 2 (by decide),
      (hd (by decide) (by decide)).1, (hd (by decide) (by decide)).2 0 (by decide) 2 (by decide)⟩

/-! ## Calls on a memory -/

/-- A store below slot `j` leaves slot `j` as it was. -/
theorem Buffer.write_frame (b : Buffer) (i j : Nat) (x : id_t) (h : i < j) :
    (b.write i x) j = b j := by
  simp [Buffer.write, Nat.ne_of_gt h]

/-- The call on a memory computes what `create_entities` computes on the
arrays `e` and `v` of the memory, and puts the written buffer back as `e`. -/
theorem create_entities_call_eq {Cell : Type} (dim vertex_count : Nat)
    (m : entities_memory Cell) :
    create_entities_call dim vertex_count m
      = (create_entities dim m.e m.v vertex_count).map fun r => (r.1, { m with e := r.2 }) := by
  unfold create_entities_call create_entities
  by_cases hd : dim = 1 <;> by_cases hc : vertex_count = 3 <;> simp [hd, hc, Except.map]

/-- The call on a memory computes what `create_bound_entities` computes on the
arrays of the memory, and puts the written buffer back as `c`. -/
theorem create_bound_entities_call_eq {Cell : Type} (from_domain to_domain dim : Nat)
    (m : bound_memory Cell) :
    create_bound_entities_call from_domain to_domain dim m
      = (create_bound_entities from_domain to_domain dim m.ent_ids m.ent_counts m.c).map
          fun r => (r.1, { m with c := r.2 }) := by
  unfold create_bound_entities_call create_bound_entities
  by_cases hc : m.ent_counts 0 = 3
  · simp only [hc, ne_eq, not_true_eq_false, if_false]
    split <;> rfl
  · simp [hc, Except.map]

/-- A successful `create_entities` call was made with `dim = 1` and
`vertex_count = 3`, and its result is the one of that call. -/
theorem create_entities_call_ok {Cell : Type} (dim vertex_count : Nat)
    (m : entities_memory Cell) (ar : List id_t) (m' : entities_memory Cell)
    (h : create_entities_call dim vertex_count m = .ok (ar, m')) :
    dim = 1 ∧ vertex_count = 3 ∧ create_entities_call 1 3 m = .ok (ar, m') := by
  by_cases hd : dim = 1
  · by_cases hc : vertex_count = 3
    · subst hd; subst hc; exact ⟨rfl, rfl, h⟩
    · simp [create_entities_call, hd, hc] at h
  · simp [create_entities_call, hd] at h

/-- A successful `create_bound_entities` call was made with three vertex ids
and with `dim = 1` or `dim = 2`. -/
theorem create_bound_entities_call_ok {Cell : Type} (from_domain to_domain dim : Nat)
    (m : bound_memory Cell) (ar : List id_t) (m' : bound_memory Cell)
    (h : create_bound_entities_call from_domain to_domain dim m = .ok (ar, m')) :
    m.ent_counts 0 = 3 ∧ (dim = 1 ∨ dim = 2) := by
  by_cases hc : m.ent_counts 0 = 3
  · refine ⟨hc, ?_⟩
    by_cases h1 : dim = 1
    · exact Or.inl h1
    · by_cases h2 : dim = 2
      · exact Or.inr h2
      · exfalso
        unfold create_bound_entities_call at h
        rw [if_neg (by simp [hc])] at h
        split at h
        · exact h1 rfl
        · exact h2 rfl
        · cases h
  · simp [create_bound_entities_call, hc] at h

/-- Claim C11: every successful call of `create_entities` (arity sum 6) and
of `create_bound_entities` (arity sum 9 at `dim = 1`, 12 at `dim = 2`) leaves
the emitted records in the slots below the arity sum of the output buffer and
every slot from the arity sum on as it was; walking the buffer with the
arities yields the emitted edges, corners or wedges; and the input id arrays,
the counts and the cell are as before the call. -/
theorem arity_count_contract {Cell : Type} :
    (∀ (dim vertex_count : Nat) (m : entities_memory Cell) (ar : List id_t)
        (m' : entities_memory Cell),
      create_entities_call dim vertex_count m = .ok (ar, m') →
        ar.sum = 6 ∧
        m'.e.slice ar.sum = [m.v 0, m.v 1, m.v 1, m.v 2, m.v 2, m.v 0] ∧
        (∀ j : Nat, ar.sum ≤ j → m'.e j = m.e j) ∧
        walk m'.e 0 ar = [[m.v 0, m.v 1], [m.v 1, m.v 2], [m.v 2, m.v 0]] ∧
        m'.v = m.v ∧ m'.cell = m.cell) ∧
    (∀ (from_domain to_domain dim : Nat) (m : bound_memory Cell) (ar : List id_t)
        (m' : bound_memory Cell),
      create_bound_entities_call from_domain to_domain dim m = .ok (ar, m') →
        (dim = 1 ∨ dim = 2) ∧
        (dim = 1 →
          ar.sum = 9 ∧
          m'.c.slice ar.sum
            = [m.ent_ids 0 0, m.ent_ids 1 0, m.ent_ids 1 2,
               m.ent_ids 0 1, m.ent_ids 1 1, m.ent_ids 1 0,
               m.ent_ids 0 2, m.ent_ids 1 2, m.ent_ids 1 1] ∧
          walk m'.c 0 ar
            = [[m.ent_ids 0 0, m.ent_ids 1 0, m.ent_ids 1 2],
               [m.ent_ids 0 1, m.ent_ids 1 1, m.ent_ids 1 0],
               [m.ent_ids 0 2, m.ent_ids 1 2, m.ent_ids 1 1]]) ∧
        (dim = 2 →
          ar.sum = 12 ∧
          m'.c.slice ar.sum
            = [m.ent_ids 0 0, m.ent_ids 1 2, m.ent_ids 0 0, m.ent_ids 1 0,
               m.ent_ids 0 1, m.ent_ids 1 0, m.ent_ids 0 1, m.ent_ids 1 1,
               m.ent_ids 0 2, m.ent_ids 1 1, m.ent_ids 0 2, m.ent_ids 1 2] ∧
          walk m'.c 0 ar
            = [[m.ent_ids 0 0, m.ent_ids 1 2], [m.ent_ids 0 0, m.ent_ids 1 0],
               [m.ent_ids 0 1, m.ent_ids 1 0], [m.ent_ids 0 1, m.ent_ids 1 1],
               [m.ent_ids 0 2, m.ent_ids 1 1], [m.ent_ids 0 2, m.ent_ids 1 2]]) ∧
        (∀ j : Nat, ar.sum ≤ j → m'.c j = m.c j) ∧
        m'.ent_ids = m.ent_ids ∧ m'.ent_counts = m.ent_counts ∧ m'.cell = m.cell) := by
  constructor
  · intro dim vertex_count m ar m' h
    obtain ⟨-, -, h⟩ := create_entities_call_ok dim vertex_count m ar m' h
    simp only [create_entities_call] at h
    injection h with h
    injection h with ha hm
    subst ha
    subst hm
    refine ⟨rfl, ?_, ?_, ?_, rfl, rfl⟩
    · simp [Buffer.slice, Buffer.write, List.range_succ]
    · intro j hj
      have hj : 6 ≤ j := hj
      dsimp only
      rw [Buffer.write_frame _ 5 j _ (by omega), Buffer.write_frame _ 4 j _ (by omega),
        Buffer.write_frame _ 3 j _ (by omega), Buffer.write_frame _ 2 j _ (by omega),
        Buffer.write_frame _ 1 j _ (by omega), Buffer.write_frame _ 0 j _ (by omega)]
    · simp [walk, Buffer.write, List.range_succ]
  · intro from_domain to_domain dim m ar m' h
    obtain ⟨hc, hd⟩ := create_bound_entities_call_ok from_domain to_domain dim m ar m' h
    rcases hd with rfl | rfl
    · simp only [create_bound_entities_call, hc] at h
      injection h with h
      injection h with ha hm
      subst ha
      subst hm
      refine ⟨Or.inl rfl, fun _ => ⟨rfl, ?_, ?_⟩, fun h2 => absurd h2 (by decide), ?_,
        rfl, rfl, rfl⟩
      · simp [Buffer.slice, Buffer.write, List.range_succ]
      · simp [walk, Buffer.write, List.range_succ]
      · intro j hj
        have hj : 9 ≤ j := hj
        dsimp only
        rw [Buffer.write_frame _ 8 j _ (by omega), Buffer.write_frame _ 7 j _ (by omega),
          Buffer.write_frame _ 6 j _ (by omega), Buffer.write_frame _ 5 j _ (by omega),
          Buffer.write_frame _ 4 j _ (by omega), Buffer.write_frame _ 3 j _ (by omega),
          Buffer.write_frame _ 2 j _ (by omega), Buffer.write_frame _ 1 j _ (by omega),
          Buffer.write_frame _ 0 j _ (by omega)]
    · simp only [create_bound_entities_call, hc] at h
      injection h with h
      injection h with ha hm
      subst ha
      subst hm
      refine ⟨Or.inr rfl, fun h1 => absurd h1 (by decide), fun _ => ⟨rfl, ?_, ?_⟩, ?_,
        rfl, rfl, rfl⟩
      · simp [Buffer.slice, Buffer.write, List.range_succ]
      · simp [walk, Buffer.write, List.range_succ]
      · intro j hj
        have hj : 12 ≤ j := hj
        dsimp only
        rw [Buffer.write_frame _ 11 j _ (by omega), Buffer.write_frame _ 10 j _ (by omega),
          Buffer.write_frame _ 9 j _ (by omega), Buffer.write_frame _ 8 j _ (by omega),
          Buffer.write_frame _ 7 j _ (by omega), Buffer.write_frame _ 6 j _ (by omega),
          Buffer.write_frame _ 5 j _ (by omega), Buffer.write_frame _ 4 j _ (by omega),
          Buffer.write_frame _ 3 j _ (by omega), Buffer.write_frame _ 2 j _ (by omega),
          Buffer.write_frame _ 1 j _ (by omega), Buffer.write_frame _ 0 j _ (by omega)]

/-- Witness of `arity_count_contract`: the three successful calls on the
sample memories. -/
theorem arity_count_contract_witness :
    (∃ ar m', create_entities_call 1 3 sample_entities_memory = .ok (ar, m') ∧
      ar.sum = 6 ∧
      m'.e.slice ar.sum = [10, 20, 20, 30, 30, 10] ∧
      (∀ j : Nat, ar.sum ≤ j → m'.e j = sample_entities_memory.e j) ∧
      walk m'.e 0 ar = [[10, 20], [20, 30], [30, 10]] ∧
      m'.v = sample_entities_memory.v ∧ m'.cell = sample_entities_memory.cell) ∧
    (∃ ar m', create_bound_entities_call 0 1 1 sample_bound_memory = .ok (ar, m') ∧
      ar.sum = 9 ∧
      m'.c.slice ar.sum = [10, 100, 300, 20, 200, 100, 30, 300, 200] ∧
      walk m'.c 0 ar = [[10, 100, 300], [20, 200, 100], [30, 300, 200]] ∧
      (∀ j : Nat, ar.sum ≤ j → m'.c j = sample_bound_memory.c j) ∧
      m'.ent_ids = sample_bound_memory.ent_ids ∧
      m'.ent_counts = sample_bound_memory.ent_counts ∧
      m'.cell = sample_bound_memory.cell) ∧
    (∃ ar m', create_bound_entities_call 0 1 2 sample_bound_memory = .ok (ar, m') ∧
      ar.sum = 12 ∧
      m'.c.slice ar.sum = [10, 300, 10, 100, 20, 100, 20, 200, 30, 200, 30, 300] ∧
      walk m'.c 0 ar
        = [[10, 300], [10, 100], [20, 100], [20, 200], [30, 200], [30, 300]] ∧
      (∀ j : Nat, ar.sum ≤ j → m'.c j = sample_bound_memory.c j) ∧
      m'.ent_ids = sample_bound_memory.ent_ids ∧
      m'.ent_counts = sample_bound_memory.ent_counts ∧
      m'.cell = sample_bound_memory.cell) :=
  have t₁ := (@arity_count_contract Nat).1 1 3 sample_entities_memory _ _ rfl
  have t₂ := (@arity_count_contract Nat).2 0 1 1 sample_bound_memory _ _ rfl
  have t₃ := (@arity_count_contract Nat).2 0 1 2 sample_bound_memory _ _ rfl
  ⟨⟨_, _, rfl, t₁⟩,
   ⟨_, _, rfl, (t₂.2.1 rfl).1, (t₂.2.1 rfl).2.1, (t₂.2.1 rfl).2.2, t₂.2.2.2⟩,
   ⟨_, _, rfl, (t₃.2.2.1 rfl).1, (t₃.2.2.1 rfl).2.1, (t₃.2.2.1 rfl).2.2, t₃.2.2.2⟩⟩

/-! ## Purity of generation -/

/-- Claim C12: two calls of `create_entities` with the same `dim`, the same
`vertex_count` and the same vertex ids, and two calls of
`create_bound_entities` with the same `dim`, the same vertex count, the same
vertex ids and the same three edge ids, end the same way and, when they
return, return the same arities and leave the same contents in the written
slots, whatever the cells, the domains, the other counts and the previous
contents of the output buffers are. -/
theorem generation_pure {Cell : Type} :
    (∀ (dim vertex_count : Nat) (m₁ m₂ : entities_memory Cell),
      (∀ i, i < vertex_count → m₁.v i = m₂.v i) →
        (create_entities_call dim vertex_count m₁).map (fun r => (r.1, r.2.e.slice r.1.sum))
          = (create_entities_call dim vertex_count m₂).map
              (fun r => (r.1, r.2.e.slice r.1.sum))) ∧
    (∀ (dim from₁ to₁ from₂ to₂ : Nat) (m₁ m₂ : bound_memory Cell),
      m₁.ent_counts 0 = m₂.ent_counts 0 →
      (∀ i, i < m₁.ent_counts 0 → m₁.ent_ids 0 i = m₂.ent_ids 0 i) →
      (∀ i, i < 3 → m₁.ent_ids 1 i = m₂.ent_ids 1 i) →
        (create_bound_entities_call from₁ to₁ dim m₁).map
            (fun r => (r.1, r.2.c.slice r.1.sum))
          = (create_bound_entities_call from₂ to₂ dim m₂).map
              (fun r => (r.1, r.2.c.slice r.1.sum))) := by
  constructor
  · intro dim vertex_count m₁ m₂ hv
    by_cases hd : dim = 1
    · by_cases hc : vertex_count = 3
      · subst hc
        have h0 := hv 0 (by decide)
        have h1 := hv 1 (by decide)
        have h2 := hv 2 (by decide)
        simp [create_entities_call, hd, Except.map, Buffer.slice, Buffer.write,
          List.range_succ, h0, h1, h2]
      · simp [create_entities_call, hd, hc, Except.map]
    · simp [create_entities_call, hd, Except.map]
  · intro dim from₁ to₁ from₂ to₂ m₁ m₂ hn hv he
    by_cases hc : m₁.ent_counts 0 = 3
    · have hc₂ : m₂.ent_counts 0 = 3 := hn ▸ hc
      rw [hc] at hv
      have v0 := hv 0 (by decide)
      have v1 := hv 1 (by decide)
      have v2 := hv 2 (by decide)
      have e0 := he 0 (by decide)
      have e1 := he 1 (by decide)
      have e2 := he 2 (by decide)
      by_cases h1 : dim = 1
      · subst h1
        simp [create_bound_entities_call, hc, hc₂, Except.map, Buffer.slice, Buffer.write,
          List.range_succ, v0, v1, v2, e0, e1, e2]
      · by_cases h2 : dim = 2
        · subst h2
          simp [create_bound_entities_call, hc, hc₂, Except.map, Buffer.slice, Buffer.write,
            List.range_succ, v0, v1, v2, e0, e1, e2]
        · have r₁ : create_bound_entities_call from₁ to₁ dim m₁
              = .error (.runtime_error "Unknown bound entity type") := by
            unfold create_bound_entities_call
            rw [if_neg (by simp [hc])]
            split
            · exact absurd rfl h1
            · exact absurd rfl h2
            · rfl
          have r₂ : create_bound_entities_call from₂ to₂ dim m₂
              = .error (.runtime_error "Unknown bound entity type") := by
            unfold create_bound_entities_call
            rw [if_neg (by simp [hc₂])]
            split
            · exact absurd rfl h1
            · exact absurd rfl h2
            · rfl
          rw [r₁, r₂]
    · have hc₂ : m₂.ent_counts 0 ≠ 3 := hn ▸ hc
      simp [create_bound_entities_call, hc, hc₂, Except.map]

/-- Witness of `generation_pure`: the sample memories against memories of
another cell with the same ids, other domains, other counts beyond the vertex
count and other previous buffer contents. -/
theorem generation_pure_witness :
    (∀ i, i < 3 → sample_entities_memory.v i = sample_entities_memory_other.v i) ∧
    sample_entities_memory.e 7 ≠ sample_entities_memory_other.e 7 ∧
    (create_entities_call 1 3 sample_entities_memory).map
        (fun r => (r.1, r.2.e.slice r.1.sum))
      = (create_entities_call 1 3 sample_entities_memory_other).map
          (fun r => (r.1, r.2.e.slice r.1.sum)) ∧
    sample_bound_memory.ent_counts 1 ≠ sample_bound_memory_other.ent_counts 1 ∧
    (create_bound_entities_call 0 1 2 sample_bound_memory).map
        (fun r => (r.1, r.2.c.slice r.1.sum))
      = (create_bound_entities_call 1 0 2 sample_bound_memory_other).map
          (fun r => (r.1, r.2.c.slice r.1.sum)) :=
  ⟨by decide, by decide,
   (@generation_pure Nat).1 1 3 sample_entities_memory sample_entities_memory_other
     (by decide),
   by decide,
   (@generation_pure Nat).2 2 0 1 1 0 sample_bound_memory sample_bound_memory_other rfl
     (by decide) (by decide)⟩

end mesh
end ale

namespace apps
namespace hydro

open ale

/-! ## Loading the input file -/

/-- Claim C13: `load` looks at the extension of the file only.  When the
extension is `lua` the call is the call `load_lua file`, and the loader is
invoked once, on `file`; for every other extension the call ends with the
runtime error for an unknown file extension, no loader is invoked, and the
static input fields are as before the call. -/
theorem load_dispatch {eos_t ics_function_t bcs_list_t : Type}
    (file_extension : String → String)
    (load_lua : String → inputs_t eos_t ics_function_t bcs_list_t →
      Outcome (inputs_t eos_t ics_function_t bcs_list_t))
    (file : String) (s : inputs_t eos_t ics_function_t bcs_list_t) (log : List String) :
    (file_extension file = "lua" →
      inputs_t.load file_extension load_lua file s = load_lua file s ∧
      (inputs_t.load file_extension (observed load_lua) file (s, log)).2.2 = log ++ [file]) ∧
    (file_extension file ≠ "lua" →
      inputs_t.load file_extension load_lua file s
        = (.error (.runtime_error (unknown_extension_message file)), s) ∧
      (inputs_t.load file_extension (observed load_lua) file (s, log)).1
        = .error (.runtime_error (unknown_extension_message file)) ∧
      (inputs_t.load file_extension (observed load_lua) file (s, log)).2.2 = log ∧
      (inputs_t.load file_extension (observed load_lua) file (s, log)).2.1 = s) := by
  constructor
  · intro h
    simp [inputs_t.load, h, observed]
  · intro h
    simp [inputs_t.load, h]

/-- Witness of `load_dispatch`: the file `hydro.lua` reaches the sample loader,
which changes the output frequency; the files `hydro.txt` and `hydro`, the
latter with an empty extension, end in the error and leave the sample inputs
as they were. -/
theorem load_dispatch_witness :
    (sample_file_extension "hydro.lua" = "lua" ∧
      inputs_t.load sample_file_extension sample_load_lua "hydro.lua" sample_inputs
        = sample_load_lua "hydro.lua" sample_inputs ∧
      (inputs_t.load sample_file_extension (observed sample_load_lua) "hydro.lua"
        (sample_inputs, [])).2.2 = [] ++ ["hydro.lua"]) ∧
    (sample_file_extension "hydro.txt" ≠ "lua" ∧
      inputs_t.load sample_file_extension sample_load_lua "hydro.txt" sample_inputs
        = (.error (.runtime_error (unknown_extension_message "hydro.txt")), sample_inputs)) ∧
    (sample_file_extension "hydro" = "" ∧
      (inputs_t.load sample_file_extension (observed sample_load_lua) "hydro"
        (sample_inputs, [])).2.2 = [] ∧
      (inputs_t.load sample_file_extension (observed sample_load_lua) "hydro"
        (sample_inputs, [])).2.1 = sample_inputs) :=
  ⟨⟨by decide,
    (load_dispatch sample_file_extension sample_load_lua "hydro.lua" sample_inputs []).1
      (by decide)⟩,
   ⟨by decide,
    ((load_dispatch sample_file_extension sample_load_lua "hydro.txt" sample_inputs []).2
      (by decide)).1⟩,
   ⟨by decide,
    ((load_dispatch sample_file_extension sample_load_lua "hydro" sample_inputs []).2
      (by decide)).2.2.1,
    ((load_dispatch sample_file_extension sample_load_lua "hydro" sample_inputs []).2
      (by decide)).2.2.2⟩⟩

end hydro
end apps
